import Mathlib

/-!
Verification of the freelance take-home calculator (`src/App.tsx`).

Shallow embedding of the calculation core of the application:

* `calculateWithholding`  — the source-withholding calculator (App.tsx lines 70–73);
* `calculateDetailedTax`  — the annual tax engine (App.tsx lines 75–145);
* `handleCalculate`       — the settlement orchestrator (App.tsx lines 226–267).

JavaScript `number` arithmetic on monetary values is modelled with exact
rationals; `Math.floor` becomes `Int.floor` followed by the cast back into
the rationals (`jsFloor`).  The record identity, timestamp and project-name
fields of a settlement record are presentation data with no role in the
calculation and are omitted from the embedding; a history entry enters the
computation only through its `amount` field, so the trailing history is a
list of rational amounts (most-recent-last, as in the source array).
-/

/-- Model of JavaScript `Math.floor` on a (finite) number. -/
def jsFloor (x : ℚ) : ℚ := (⌊x⌋ : ℤ)

/-- Embedding of the `UserSettings` interface (App.tsx lines 28–35): the
deduction/region profile.  The field `blueReturnType` is one of the strings
`"65"`, `"55"`, `"10"`, `"white"`; `dependents` is a non-negative integer. -/
structure UserSettings where
  blueReturnType : String
  spouseDeduction : Bool
  dependents : ℕ
  expenseRate : ℚ
  prefecture : String
  businessType : String
deriving DecidableEq

/-- Embedding of the `TaxBreakdown` interface (App.tsx lines 19–26). -/
structure TaxBreakdown where
  incomeTax : ℚ
  residentTax : ℚ
  healthInsurance : ℚ
  pension : ℚ
  businessTax : ℚ
  total : ℚ
deriving DecidableEq

/-- One entry of the regional health-insurance rate table:
`{ incomeRate, flatRate }`. -/
structure InsuranceRate where
  incomeRate : ℚ
  flatRate : ℚ
deriving DecidableEq

/-- The rate bucket stored under the key `"その他"` ("other"), used as the
fallback for unrecognized prefectures (App.tsx line 55, line 122). -/
def otherInsuranceRate : InsuranceRate := ⟨0.0950, 45000⟩

/-- Embedding of `HEALTH_INSURANCE_RATES` (App.tsx lines 44–56):
prefecture-keyed national-health-insurance rates, as an association list. -/
def HEALTH_INSURANCE_RATES : List (String × InsuranceRate) :=
  [("東京都", ⟨0.0976, 53400⟩),
   ("大阪府", ⟨0.1012, 49152⟩),
   ("神奈川県", ⟨0.0931, 48500⟩),
   ("愛知県", ⟨0.0889, 45600⟩),
   ("福岡県", ⟨0.1043, 42300⟩),
   ("北海道", ⟨0.1087, 39800⟩),
   ("埼玉県", ⟨0.0925, 47100⟩),
   ("千葉県", ⟨0.0945, 46200⟩),
   ("兵庫県", ⟨0.0998, 44100⟩),
   ("京都府", ⟨0.0967, 46800⟩),
   ("その他", otherInsuranceRate)]

/-- Embedding of `BUSINESS_TAX_TYPES` (App.tsx lines 59–67): business
categories subject to the 5% business tax. -/
def BUSINESS_TAX_TYPES : List String :=
  ["物品販売業", "製造業", "請負業", "コンサルタント業",
   "デザイン業", "プログラミング業", "その他の事業"]

/-- Model of `HEALTH_INSURANCE_RATES[settings.prefecture] || HEALTH_INSURANCE_RATES['その他']`
(App.tsx line 122): object lookup with silent fallback to the `"その他"`
bucket (`undefined` is falsy, any rate object is truthy). -/
def resolveInsuranceRate (prefecture : String) : InsuranceRate :=
  (HEALTH_INSURANCE_RATES.lookup prefecture).getD otherInsuranceRate

/-- Embedding of `calculateWithholding` (App.tsx lines 70–73). -/
def calculateWithholding (amount : ℚ) (includesTax : Bool) : ℚ :=
  let baseAmount := if includesTax then amount / 1.1 else amount
  if baseAmount ≥ 1000000 then jsFloor (baseAmount * 0.2042)
  else jsFloor (baseAmount * 0.1021)

/-- Step 1 of `calculateDetailedTax` (App.tsx lines 80–81):
`revenue = annualIncome - annualIncome * (expenseRate / 100)`. -/
def revenueOf (annualIncome : ℚ) (settings : UserSettings) : ℚ :=
  annualIncome - annualIncome * (settings.expenseRate / 100)

/-- Step 2 of `calculateDetailedTax` (App.tsx lines 84–87): the blue-return
special deduction looked up from `blueReturnType`. -/
def blueReturnDeductionOf (settings : UserSettings) : ℚ :=
  if settings.blueReturnType = "65" then 650000
  else if settings.blueReturnType = "55" then 550000
  else if settings.blueReturnType = "10" then 100000
  else 0

/-- Steps 3–4 of `calculateDetailedTax` (App.tsx lines 90–99): taxable
income, clamped at zero. -/
def taxableIncomeOf (annualIncome : ℚ) (settings : UserSettings) : ℚ :=
  max 0
    (revenueOf annualIncome settings - blueReturnDeductionOf settings - 480000 -
      (if settings.spouseDeduction then 380000 else 0) -
      (settings.dependents : ℚ) * 380000 - 199200)

/-- Step 5 of `calculateDetailedTax` (App.tsx lines 102–113): the progressive
income-tax bracket accumulation, before the reconstruction surcharge. -/
def progressiveIncomeTax (taxableIncome : ℚ) : ℚ :=
  if taxableIncome ≤ 1950000 then taxableIncome * 0.05
  else if taxableIncome ≤ 3300000 then
    1950000 * 0.05 + (taxableIncome - 1950000) * 0.1
  else if taxableIncome ≤ 6950000 then
    1950000 * 0.05 + 1350000 * 0.1 + (taxableIncome - 3300000) * 0.2
  else if taxableIncome ≤ 9000000 then
    1950000 * 0.05 + 1350000 * 0.1 + 3650000 * 0.2 + (taxableIncome - 6950000) * 0.23
  else
    1950000 * 0.05 + 1350000 * 0.1 + 3650000 * 0.2 + 2050000 * 0.23 +
      (taxableIncome - 9000000) * 0.33

/-- Embedding of `calculateDetailedTax` (App.tsx lines 75–145). -/
def calculateDetailedTax (annualIncome : ℚ) (settings : UserSettings) : TaxBreakdown :=
  let revenue := revenueOf annualIncome settings
  let taxableIncome := taxableIncomeOf annualIncome settings
  let incomeTax := jsFloor (progressiveIncomeTax taxableIncome * 1.021)
  let residentTax := jsFloor (taxableIncome * 0.1) + 5000
  let insuranceRate := resolveInsuranceRate settings.prefecture
  let healthInsurance :=
    min (jsFloor (revenue * insuranceRate.incomeRate) + insuranceRate.flatRate) 1020000
  let pension : ℚ := 199200
  let businessTax :=
    if settings.businessType ∈ BUSINESS_TAX_TYPES ∧ revenue > 2900000 then
      jsFloor ((revenue - 2900000) * 0.05)
    else 0
  ⟨incomeTax, residentTax, healthInsurance, pension, businessTax,
    incomeTax + residentTax + healthInsurance + pension + businessTax⟩

/-- A JavaScript `number` as produced by `parseFloat`: `NaN`, one of the
two infinities, or a finite value (modelled exactly as a rational). -/
inductive JsNumber where
  | nan
  | posInf
  | negInf
  | finite (q : ℚ)
deriving DecidableEq

/-- Model of JavaScript `isNaN(x)` for a `JsNumber`. -/
def jsIsNaN : JsNumber → Bool
  | JsNumber.nan => true
  | _ => false

/-- Model of the JavaScript comparison `x <= 0` for a `JsNumber` (false on
`NaN` and on positive infinity, true on negative infinity). -/
def jsLeZero : JsNumber → Bool
  | JsNumber.nan => false
  | JsNumber.posInf => false
  | JsNumber.negInf => true
  | JsNumber.finite q => decide (q ≤ 0)

/-- Model of the validation guard of `handleCalculate` (App.tsx line 228):
`if (isNaN(amountNum) || amountNum <= 0) return;`.  The result is `true`
exactly when execution continues past the guard, i.e. when a settlement
record is created and appended to the history and both calculators are
invoked; `false` means the handler returns with no record, no history
append and no computation. -/
def handleCalculateProceeds (amountNum : JsNumber) : Bool :=
  !(jsIsNaN amountNum || jsLeZero amountNum)

/-- Embedding of `hasWithholding ? calculateWithholding(amountNum, includesTax) : 0`
(App.tsx line 230). -/
def withholdingAmountOf (amount : ℚ) (includesTax hasWithholding : Bool) : ℚ :=
  if hasWithholding then calculateWithholding amount includesTax else 0

/-- Embedding of `includesTax ? amountNum - (amountNum / 1.1) : amountNum * 0.1`
(App.tsx line 231). -/
def consumptionTaxOf (amount : ℚ) (includesTax : Bool) : ℚ :=
  if includesTax then amount - amount / 1.1 else amount * 0.1

/-- Embedding of the `depositAmount` computation (App.tsx lines 232–234). -/
def depositAmountOf (amount : ℚ) (includesTax hasWithholding : Bool) : ℚ :=
  if includesTax then amount - withholdingAmountOf amount includesTax hasWithholding
  else amount + consumptionTaxOf amount includesTax -
    withholdingAmountOf amount includesTax hasWithholding

/-- Embedding of `calculations.slice(-3)` (App.tsx line 237): the last at
most three history entries. -/
def recentSlice (calculations : List ℚ) : List ℚ :=
  calculations.drop (calculations.length - 3)

/-- Embedding of the annualized-income estimation of `handleCalculate`
(App.tsx lines 237–241): the arithmetic mean of the last at most three
history amounts (the current amount itself when the history is empty),
times 12. -/
def annualIncomeEstimate (amount : ℚ) (calculations : List ℚ) : ℚ :=
  let recent := recentSlice calculations
  (if recent.length > 0 then recent.sum / (recent.length : ℚ) else amount) * 12

/-- Embedding of the `ProjectCalculation` record (App.tsx lines 6–17),
restricted to its computational fields (`id`, `date` and `projectName` are
presentation data). -/
structure ProjectCalculation where
  amount : ℚ
  includesTax : Bool
  hasWithholding : Bool
  withholdingAmount : ℚ
  depositAmount : ℚ
  estimatedTakeHome : ℚ
  taxBreakdown : TaxBreakdown
deriving DecidableEq

/-- The record built by `handleCalculate` once the guard has passed
(App.tsx lines 230–259). -/
def settleRecord (amount : ℚ) (includesTax hasWithholding : Bool)
    (calculations : List ℚ) (settings : UserSettings) : ProjectCalculation :=
  let withholdingAmount := withholdingAmountOf amount includesTax hasWithholding
  let depositAmount := depositAmountOf amount includesTax hasWithholding
  let annualIncome := annualIncomeEstimate amount calculations
  let taxBreakdown := calculateDetailedTax annualIncome settings
  let monthlyTaxBurden := taxBreakdown.total / 12
  ⟨amount, includesTax, hasWithholding, withholdingAmount, depositAmount,
    depositAmount - monthlyTaxBurden, taxBreakdown⟩

/-- Embedding of `handleCalculate` (App.tsx lines 226–267) on a finite
parsed amount: `none` models the guard's early `return` (no record created,
none appended), `some r` models creating record `r` and appending it to the
history.  The `isNaN` disjunct of the guard is necessarily false on a
finite value; `handleCalculateProceeds` carries the guard for the
non-finite cases. -/
def handleCalculate (amount : ℚ) (includesTax hasWithholding : Bool)
    (calculations : List ℚ) (settings : UserSettings) : Option ProjectCalculation :=
  if amount ≤ 0 then none
  else some (settleRecord amount includesTax hasWithholding calculations settings)

/-- The initial settings state (App.tsx lines 150–157). -/
def defaultSettings : UserSettings :=
  ⟨"65", false, 0, 30, "東京都", "プログラミング業"⟩

/-- Basic fact: `jsFloor` is below its argument. -/
theorem jsFloor_le (x : ℚ) : jsFloor x ≤ x := by
  unfold jsFloor
  exact Int.floor_le x

/-- Basic fact: `jsFloor` is monotone. -/
theorem jsFloor_mono {x y : ℚ} (h : x ≤ y) : jsFloor x ≤ jsFloor y := by
  unfold jsFloor
  exact_mod_cast Int.floor_le_floor h

/-- Basic fact: `jsFloor` of a non-negative number is non-negative. -/
theorem jsFloor_nonneg {x : ℚ} (h : 0 ≤ x) : 0 ≤ jsFloor x := by
  unfold jsFloor
  exact_mod_cast Int.floor_nonneg.mpr h

/-- Every rate bucket that `resolveInsuranceRate` can return (the eleven
table entries and the fallback) has non-negative income rate and flat
rate. -/
theorem resolveInsuranceRate_nonneg (p : String) :
    0 ≤ (resolveInsuranceRate p).incomeRate ∧ 0 ≤ (resolveInsuranceRate p).flatRate := by
  unfold resolveInsuranceRate HEALTH_INSURANCE_RATES
  simp only [List.lookup_cons, List.lookup_nil]
  repeat' split
  all_goals norm_num [otherInsuranceRate]

/-- The bracket accumulation is monotone in taxable income. -/
theorem progressiveIncomeTax_mono {t1 t2 : ℚ} (h : t1 ≤ t2) :
    progressiveIncomeTax t1 ≤ progressiveIncomeTax t2 := by
  unfold progressiveIncomeTax
  split_ifs <;> nlinarith

/-- The bracket accumulation is non-negative on non-negative taxable
income. -/
theorem progressiveIncomeTax_nonneg {t : ℚ} (h : 0 ≤ t) : 0 ≤ progressiveIncomeTax t := by
  unfold progressiveIncomeTax
  split_ifs <;> nlinarith

/-- Post-expense revenue is monotone in gross revenue while the expense
rate is at most 100%. -/
theorem revenueOf_mono (s : UserSettings) {a1 a2 : ℚ}
    (he : s.expenseRate ≤ 100) (h : a1 ≤ a2) :
    revenueOf a1 s ≤ revenueOf a2 s := by
  unfold revenueOf
  nlinarith [mul_nonneg (sub_nonneg.mpr h) (by linarith : (0:ℚ) ≤ 1 - s.expenseRate / 100)]

/-- Post-expense revenue is non-negative on non-negative gross revenue
while the expense rate is at most 100%. -/
theorem revenueOf_nonneg (s : UserSettings) {a : ℚ} (h0 : 0 ≤ a)
    (he : s.expenseRate ≤ 100) : 0 ≤ revenueOf a s := by
  unfold revenueOf
  nlinarith [mul_nonneg h0 (by linarith : (0:ℚ) ≤ 1 - s.expenseRate / 100)]

/-- Taxable income is monotone in gross revenue while the expense rate is
at most 100%. -/
theorem taxableIncomeOf_mono (s : UserSettings) {a1 a2 : ℚ}
    (he : s.expenseRate ≤ 100) (h : a1 ≤ a2) :
    taxableIncomeOf a1 s ≤ taxableIncomeOf a2 s := by
  unfold taxableIncomeOf
  exact max_le_max le_rfl (by linarith [revenueOf_mono s he h])

/-- The `total` field of the annual tax engine is monotone in gross annual
revenue, for any fixed profile whose expense rate is at most 100%. -/
theorem calculateDetailedTax_total_mono (s : UserSettings) {a1 a2 : ℚ}
    (he : s.expenseRate ≤ 100) (h : a1 ≤ a2) :
    (calculateDetailedTax a1 s).total ≤ (calculateDetailedTax a2 s).total := by
  have hrev := revenueOf_mono s he h
  have htax := taxableIncomeOf_mono s he h
  have hrate := resolveInsuranceRate_nonneg s.prefecture
  have hinc : jsFloor (progressiveIncomeTax (taxableIncomeOf a1 s) * 1.021) ≤
      jsFloor (progressiveIncomeTax (taxableIncomeOf a2 s) * 1.021) :=
    jsFloor_mono (by nlinarith [progressiveIncomeTax_mono htax])
  have hres : jsFloor (taxableIncomeOf a1 s * 0.1) ≤ jsFloor (taxableIncomeOf a2 s * 0.1) :=
    jsFloor_mono (by nlinarith)
  have hhi : min (jsFloor (revenueOf a1 s * (resolveInsuranceRate s.prefecture).incomeRate) +
        (resolveInsuranceRate s.prefecture).flatRate) 1020000 ≤
      min (jsFloor (revenueOf a2 s * (resolveInsuranceRate s.prefecture).incomeRate) +
        (resolveInsuranceRate s.prefecture).flatRate) 1020000 :=
    min_le_min (add_le_add_right
      (jsFloor_mono (mul_le_mul_of_nonneg_right hrev hrate.1)) _) le_rfl
  have hbt : (if s.businessType ∈ BUSINESS_TAX_TYPES ∧ revenueOf a1 s > 2900000 then
        jsFloor ((revenueOf a1 s - 2900000) * 0.05) else 0) ≤
      (if s.businessType ∈ BUSINESS_TAX_TYPES ∧ revenueOf a2 s > 2900000 then
        jsFloor ((revenueOf a2 s - 2900000) * 0.05) else 0) := by
    split_ifs with h1 h2 h2
    · exact jsFloor_mono (by nlinarith)
    · exact absurd ⟨h1.1, by linarith [h1.2]⟩ h2
    · exact jsFloor_nonneg (by nlinarith [h2.2])
    · exact le_rfl
  simp only [calculateDetailedTax]
  linarith

/-- The deposit amount derived from a strictly positive payment is strictly
positive: the withheld amount is the floor of at most 20.42% of a base
that is at most the payment amount. -/
theorem depositAmountOf_pos {amount : ℚ} (it hw : Bool) (h : 0 < amount) :
    0 < depositAmountOf amount it hw := by
  have f1 := jsFloor_le (amount / 1.1 * 0.2042)
  have f2 := jsFloor_le (amount / 1.1 * 0.1021)
  have f3 := jsFloor_le (amount * 0.2042)
  have f4 := jsFloor_le (amount * 0.1021)
  cases it <;> cases hw <;>
    simp only [depositAmountOf, withholdingAmountOf, consumptionTaxOf, calculateWithholding,
      Bool.false_eq_true, if_false, if_true, ite_true, ite_false] <;>
    first
      | (split_ifs <;> (norm_num at f1 f2 f3 f4 ⊢; linarith))
      | (norm_num; try linarith)

/-- C1 counterexample: a positive-infinity amount (e.g. the input string
`"1e999"`, which `parseFloat` turns into `Infinity`) is non-finite, yet the
guard of `handleCalculate` lets it through (`isNaN(Infinity)` is false and
`Infinity <= 0` is false), so a settlement record IS produced — refuting
the claim that every non-finite amount is refused. -/
theorem C1_counterexample : handleCalculateProceeds JsNumber.posInf = true := rfl

/-- C1 (amended): the orchestrator guard refuses exactly the `NaN`
(non-numeric), negative-infinity and non-positive finite amounts — no
record, no history append, no calculator invocation for those — and on a
finite amount `handleCalculate` returns no record exactly when the amount
is non-positive.  (Positive infinity, although non-finite, passes the
guard.) -/
theorem C1_guard_refusal (x : JsNumber) (q : ℚ) (it hw : Bool) (hist : List ℚ)
    (s : UserSettings) :
    (handleCalculateProceeds x = false ↔
      x = JsNumber.nan ∨ x = JsNumber.negInf ∨ ∃ p, x = JsNumber.finite p ∧ p ≤ 0) ∧
    (handleCalculate q it hw hist s = none ↔ q ≤ 0) := by
  constructor
  · cases x <;> simp [handleCalculateProceeds, jsIsNaN, jsLeZero]
  · simp [handleCalculate]

/-- C2: for every positive amount, `calculateWithholding` with
`includesTax = false` is the floor of `amount × 0.1021` below the 1,000,000
threshold and the floor of `amount × 0.2042` from the threshold up; with
`includesTax = true` the same tiered rule is applied to `amount / 1.1`; and
the result is always a whole monetary unit. -/
theorem C2_withholding_tiers (amount : ℚ) (h : 0 < amount) :
    (calculateWithholding amount false =
      if amount < 1000000 then ((⌊amount * 0.1021⌋ : ℤ) : ℚ)
      else ((⌊amount * 0.2042⌋ : ℤ) : ℚ)) ∧
    (calculateWithholding amount true =
      if amount / 1.1 < 1000000 then ((⌊(amount / 1.1) * 0.1021⌋ : ℤ) : ℚ)
      else ((⌊(amount / 1.1) * 0.2042⌋ : ℤ) : ℚ)) ∧
    (∀ it, ∃ n : ℤ, calculateWithholding amount it = (n : ℚ)) := by
  refine ⟨?_, ?_, ?_⟩
  · simp only [calculateWithholding, jsFloor, if_neg (Bool.false_ne_true)]
    split_ifs with h1 h2 h2 <;> first | rfl | linarith
  · simp only [calculateWithholding, jsFloor, if_pos rfl]
    split_ifs with h1 h2 h2 <;> first | rfl | linarith
  · intro it
    simp only [calculateWithholding, jsFloor]
    split_ifs <;> exact ⟨_, rfl⟩

/-- C2 witness: at the concrete positive amount 500,000 (below the
threshold, tax-exclusive) the withholding evaluates to
`floor(500000 × 0.1021) = 51050`. -/
theorem C2_withholding_tiers_witness :
    (0:ℚ) < 500000 ∧ calculateWithholding 500000 false = 51050 := by
  refine ⟨by norm_num, ?_⟩
  have h := (C2_withholding_tiers 500000 (by norm_num)).1
  rw [if_pos (by norm_num)] at h
  rw [h]
  norm_num

/-- C3: taxable income is clamped at zero (never negative), and whenever
the combined deductions meet or exceed post-expense revenue the income-tax
component is 0 and the resident-tax component is exactly the 5,000 flat
levy. -/
theorem C3_taxable_clamp (a : ℚ) (s : UserSettings) :
    0 ≤ taxableIncomeOf a s ∧
    (revenueOf a s ≤ blueReturnDeductionOf s + 480000 +
        (if s.spouseDeduction then 380000 else 0) +
        (s.dependents : ℚ) * 380000 + 199200 →
      taxableIncomeOf a s = 0 ∧
      (calculateDetailedTax a s).incomeTax = 0 ∧
      (calculateDetailedTax a s).residentTax = 5000) := by
  refine ⟨le_max_left _ _, fun h => ?_⟩
  have ht : taxableIncomeOf a s = 0 := by
    unfold taxableIncomeOf
    exact max_eq_left (by linarith)
  refine ⟨ht, ?_, ?_⟩
  · simp [calculateDetailedTax, ht, progressiveIncomeTax, jsFloor]
  · simp [calculateDetailedTax, ht, jsFloor]

/-- C3 witness: at zero gross revenue under the default profile the clamp
fires and yields income tax 0 and resident tax 5,000. -/
theorem C3_taxable_clamp_witness :
    0 ≤ taxableIncomeOf 0 defaultSettings ∧
    taxableIncomeOf 0 defaultSettings = 0 ∧
    (calculateDetailedTax 0 defaultSettings).incomeTax = 0 ∧
    (calculateDetailedTax 0 defaultSettings).residentTax = 5000 := by
  have h := C3_taxable_clamp 0 defaultSettings
  have hc := h.2 (by norm_num [revenueOf, blueReturnDeductionOf, defaultSettings])
  exact ⟨h.1, hc.1, hc.2.1, hc.2.2⟩

/-- C4: the health-insurance component equals
`min(floor(revenue × incomeRate) + flatRate, 1020000)` for the rate bucket
resolved from the profile's region; an unrecognized region key silently
resolves to the `"その他"` default bucket (yielding the same breakdown as
that bucket, never an error); and the component never exceeds the
1,020,000 cap. -/
theorem C4_healthInsurance_cap (a : ℚ) (s : UserSettings) :
    (calculateDetailedTax a s).healthInsurance =
      min (((⌊revenueOf a s * (resolveInsuranceRate s.prefecture).incomeRate⌋ : ℤ) : ℚ) +
        (resolveInsuranceRate s.prefecture).flatRate) 1020000 ∧
    (HEALTH_INSURANCE_RATES.lookup s.prefecture = none →
      resolveInsuranceRate s.prefecture = otherInsuranceRate ∧
      calculateDetailedTax a s =
        calculateDetailedTax a
          ⟨s.blueReturnType, s.spouseDeduction, s.dependents,
            s.expenseRate, "その他", s.businessType⟩) ∧
    (calculateDetailedTax a s).healthInsurance ≤ 1020000 := by
  refine ⟨rfl, fun h => ?_, min_le_right _ _⟩
  have hr : resolveInsuranceRate s.prefecture = otherInsuranceRate := by
    simp [resolveInsuranceRate, h]
  have hr2 : resolveInsuranceRate "その他" = otherInsuranceRate := rfl
  refine ⟨hr, ?_⟩
  simp [calculateDetailedTax, taxableIncomeOf, revenueOf, blueReturnDeductionOf, hr, hr2]

/-- C4 witness: the unrecognized region key `"不明県"` resolves to the
default bucket and produces the same breakdown as the `"その他"` region. -/
theorem C4_healthInsurance_cap_witness :
    resolveInsuranceRate "不明県" = otherInsuranceRate ∧
    calculateDetailedTax 1000000 ⟨"65", false, 0, 30, "不明県", "プログラミング業"⟩ =
      calculateDetailedTax 1000000 ⟨"65", false, 0, 30, "その他", "プログラミング業"⟩ :=
  (C4_healthInsurance_cap 1000000 ⟨"65", false, 0, 30, "不明県", "プログラミング業"⟩).2.1 rfl

/-- C5: holding the profile fixed (with its expense rate in the documented
0–80 range), the `total` field of the annual tax engine is monotonically
non-decreasing in gross annual revenue.  Monotonicity is proved for all
revenues, which in particular covers all pairs above the
combined-deduction threshold as the claim states. -/
theorem C5_total_monotone (s : UserSettings) (a1 a2 : ℚ)
    (he : s.expenseRate ≤ 80) (h : a1 ≤ a2) :
    (calculateDetailedTax a1 s).total ≤ (calculateDetailedTax a2 s).total :=
  calculateDetailedTax_total_mono s (by linarith) h

/-- C5 witness: under the default profile, the total at 12,000,000 is at
most the total at 24,000,000. -/
theorem C5_total_monotone_witness :
    defaultSettings.expenseRate ≤ 80 ∧ (12000000:ℚ) ≤ 24000000 ∧
    (calculateDetailedTax 12000000 defaultSettings).total ≤
      (calculateDetailedTax 24000000 defaultSettings).total :=
  ⟨by norm_num [defaultSettings], by norm_num,
    C5_total_monotone defaultSettings 12000000 24000000
      (by norm_num [defaultSettings]) (by norm_num)⟩

/-- C6: the business-tax component equals
`floor((revenue − 2900000) × 0.05)` exactly when the profile's business
category is in the taxable set AND post-expense revenue exceeds 2,900,000,
and 0 otherwise; in particular it is 0 for any non-taxable category
regardless of revenue. -/
theorem C6_businessTax (a : ℚ) (s : UserSettings) :
    ((calculateDetailedTax a s).businessTax =
      if s.businessType ∈ BUSINESS_TAX_TYPES ∧ revenueOf a s > 2900000 then
        ((⌊(revenueOf a s - 2900000) * 0.05⌋ : ℤ) : ℚ)
      else 0) ∧
    (s.businessType ∉ BUSINESS_TAX_TYPES → (calculateDetailedTax a s).businessTax = 0) := by
  constructor
  · rfl
  · intro h
    simp [calculateDetailedTax, jsFloor, h]

/-- C6 witness: the non-taxable category `"非課税"` yields business tax 0
even at a revenue of 100,000,000. -/
theorem C6_businessTax_witness :
    "非課税" ∉ BUSINESS_TAX_TYPES ∧
    (calculateDetailedTax 100000000 ⟨"65", false, 0, 30, "東京都", "非課税"⟩).businessTax = 0 :=
  ⟨by decide, (C6_businessTax 100000000 ⟨"65", false, 0, 30, "東京都", "非課税"⟩).2 (by decide)⟩

/-- C7: the orchestrator's annualized income estimate is the arithmetic
mean of the amounts of the last at most three history entries (taken
before the current payment is appended) times 12 — the current amount
itself times 12 when the history is empty — and the settlement record's
tax breakdown is the annual tax engine applied to that estimate. -/
theorem C7_annualEstimate (amount x y z : ℚ) (l : List ℚ)
    (it hw : Bool) (hist : List ℚ) (s : UserSettings) :
    annualIncomeEstimate amount [] = amount * 12 ∧
    annualIncomeEstimate amount [x] = x * 12 ∧
    annualIncomeEstimate amount [x, y] = (x + y) / 2 * 12 ∧
    annualIncomeEstimate amount (l ++ [x, y, z]) = (x + y + z) / 3 * 12 ∧
    (settleRecord amount it hw hist s).taxBreakdown =
      calculateDetailedTax (annualIncomeEstimate amount hist) s := by
  refine ⟨rfl, ?_, ?_, ?_, rfl⟩
  · simp [annualIncomeEstimate, recentSlice]
  · norm_num [annualIncomeEstimate, recentSlice]
  · have hd : (l ++ [x, y, z]).drop ((l ++ [x, y, z]).length - 3) = [x, y, z] := by
      simp
    norm_num [annualIncomeEstimate, recentSlice, hd]
    ring

/-- C8: end-to-end, with empty trailing history, a single payment of
100,000 with `includesTax = false` and `hasWithholding = false` yields
withholding 0, consumption tax exactly 10,000, deposit exactly 110,000,
and an annualized income estimate of exactly 1,200,000 — for every
profile, since none of these four values depends on the settings. -/
theorem C8_endToEnd (s : UserSettings) :
    handleCalculate 100000 false false [] s = some (settleRecord 100000 false false [] s) ∧
    (settleRecord 100000 false false [] s).withholdingAmount = 0 ∧
    consumptionTaxOf 100000 false = 10000 ∧
    (settleRecord 100000 false false [] s).depositAmount = 110000 ∧
    annualIncomeEstimate 100000 [] = 1200000 := by
  refine ⟨?_, rfl, by norm_num [consumptionTaxOf], ?_,
    by norm_num [annualIncomeEstimate, recentSlice]⟩
  · simp [handleCalculate]
  · norm_num [settleRecord, depositAmountOf, withholdingAmountOf, consumptionTaxOf]

/-- C9: every breakdown returned by the annual tax engine has `total`
exactly equal to the sum of the five components, and (for non-negative
gross revenue and an expense rate in the documented 0–80 range) all six
fields are non-negative. -/
theorem C9_breakdown_invariant (a : ℚ) (s : UserSettings) (h0 : 0 ≤ a)
    (h1 : 0 ≤ s.expenseRate) (h2 : s.expenseRate ≤ 80) :
    (calculateDetailedTax a s).total =
      (calculateDetailedTax a s).incomeTax + (calculateDetailedTax a s).residentTax +
      (calculateDetailedTax a s).healthInsurance + (calculateDetailedTax a s).pension +
      (calculateDetailedTax a s).businessTax ∧
    0 ≤ (calculateDetailedTax a s).incomeTax ∧
    0 ≤ (calculateDetailedTax a s).residentTax ∧
    0 ≤ (calculateDetailedTax a s).healthInsurance ∧
    0 ≤ (calculateDetailedTax a s).pension ∧
    0 ≤ (calculateDetailedTax a s).businessTax ∧
    0 ≤ (calculateDetailedTax a s).total := by
  have hrev : 0 ≤ revenueOf a s := revenueOf_nonneg s h0 (by linarith)
  have htax : 0 ≤ taxableIncomeOf a s := le_max_left _ _
  have hrate := resolveInsuranceRate_nonneg s.prefecture
  have hinc : 0 ≤ jsFloor (progressiveIncomeTax (taxableIncomeOf a s) * 1.021) :=
    jsFloor_nonneg (by nlinarith [progressiveIncomeTax_nonneg htax])
  have hres : 0 ≤ jsFloor (taxableIncomeOf a s * 0.1) + 5000 := by
    have := jsFloor_nonneg (by nlinarith : 0 ≤ taxableIncomeOf a s * 0.1)
    linarith
  have hhi : 0 ≤ min (jsFloor (revenueOf a s * (resolveInsuranceRate s.prefecture).incomeRate) +
      (resolveInsuranceRate s.prefecture).flatRate) 1020000 :=
    le_min (add_nonneg (jsFloor_nonneg (mul_nonneg hrev hrate.1)) hrate.2) (by norm_num)
  have hbt : 0 ≤ (if s.businessType ∈ BUSINESS_TAX_TYPES ∧ revenueOf a s > 2900000 then
      jsFloor ((revenueOf a s - 2900000) * 0.05) else 0) := by
    split_ifs with hb
    · exact jsFloor_nonneg (by nlinarith [hb.2])
    · exact le_rfl
  have htot : 0 ≤ jsFloor (progressiveIncomeTax (taxableIncomeOf a s) * 1.021) +
      (jsFloor (taxableIncomeOf a s * 0.1) + 5000) +
      min (jsFloor (revenueOf a s * (resolveInsuranceRate s.prefecture).incomeRate) +
        (resolveInsuranceRate s.prefecture).flatRate) 1020000 + 199200 +
      (if s.businessType ∈ BUSINESS_TAX_TYPES ∧ revenueOf a s > 2900000 then
        jsFloor ((revenueOf a s - 2900000) * 0.05) else 0) := by linarith
  exact ⟨rfl, hinc, hres, hhi, (by norm_num : (0:ℚ) ≤ (199200:ℚ)), hbt, htot⟩

/-- C9 witness: the invariant instantiated at gross revenue 12,000,000
under the default profile. -/
theorem C9_breakdown_invariant_witness :
    (0:ℚ) ≤ 12000000 ∧ (0:ℚ) ≤ defaultSettings.expenseRate ∧
      defaultSettings.expenseRate ≤ 80 ∧
    (calculateDetailedTax 12000000 defaultSettings).total =
      (calculateDetailedTax 12000000 defaultSettings).incomeTax +
      (calculateDetailedTax 12000000 defaultSettings).residentTax +
      (calculateDetailedTax 12000000 defaultSettings).healthInsurance +
      (calculateDetailedTax 12000000 defaultSettings).pension +
      (calculateDetailedTax 12000000 defaultSettings).businessTax ∧
    0 ≤ (calculateDetailedTax 12000000 defaultSettings).total :=
  ⟨by norm_num, by norm_num [defaultSettings], by norm_num [defaultSettings],
    (C9_breakdown_invariant 12000000 defaultSettings (by norm_num)
      (by norm_num [defaultSettings]) (by norm_num [defaultSettings])).1,
    (C9_breakdown_invariant 12000000 defaultSettings (by norm_num)
      (by norm_num [defaultSettings]) (by norm_num [defaultSettings])).2.2.2.2.2.2⟩

/-- C10: every payment amount accepted by the orchestrator's guard (i.e.
every positive amount) produces a record, and its deposit amount is
strictly positive for every combination of the tax-inclusive and
withholding flags. -/
theorem C10_deposit_positive (amount : ℚ) (includesTax hasWithholding : Bool)
    (calculations : List ℚ) (settings : UserSettings) (h : 0 < amount) :
    handleCalculate amount includesTax hasWithholding calculations settings =
      some (settleRecord amount includesTax hasWithholding calculations settings) ∧
    0 < (settleRecord amount includesTax hasWithholding calculations settings).depositAmount := by
  constructor
  · simp [handleCalculate, not_le.mpr h]
  · exact depositAmountOf_pos includesTax hasWithholding h

/-- C10 witness: a tax-inclusive payment of 100,000 with withholding is
accepted and its deposit amount is strictly positive. -/
theorem C10_deposit_positive_witness :
    (0:ℚ) < 100000 ∧
    handleCalculate 100000 true true [] defaultSettings =
      some (settleRecord 100000 true true [] defaultSettings) ∧
    0 < (settleRecord 100000 true true [] defaultSettings).depositAmount :=
  ⟨by norm_num, C10_deposit_positive 100000 true true [] defaultSettings (by norm_num)⟩
